import Mathlib

/-
  Verification of the service-provider side of the SGX remote-attestation
  bootstrap, against its specification.

  Shallow embedding of:
    - src/sgx-crypto/src/signature.rs  (RSA key store: load / sign / verify)
    - src/sample-sp/src/main.rs        (bootstrap driver and framed channel read)

  External primitives (the `ring` crate's RSA operations, the PEM codec and
  the secure-channel cipher) are opaque collaborators at the specified
  interface boundary; they are embedded as explicit function parameters, so
  every theorem quantifies over all possible behaviours of the primitive.
-/

namespace SgxRA

/-- Byte strings are lists of naturals (each a byte value). -/
abbrev Bytes := List Nat

/-- Error taxonomy of src/sgx-crypto/src/signature.rs (`enum SigError`).
The `IO(std::io::Error)` constructor is embedded payload-free as `IOFailure`. -/
inductive SigError where
  | IOFailure
  | BadPrivateKey
  | BadPublicKey
  | BadSignature
  | OutOfMemory
deriving DecidableEq, Repr

/-- `struct VerificationKey { key: Vec<u8> }`: opaque DER public-key bytes. -/
structure VerificationKey where
  key : Bytes
deriving DecidableEq, Repr

/-- Rust `<[u8]>::copy_from_slice`: element-wise copy of `src` into the slots
of `dst` (the call sites always supply equal lengths). -/
def copyFromSlice (dst src : Bytes) : Bytes :=
  List.zipWith (fun _ s => s) dst src

/-- `VerificationKey::new_from_der`: allocate a zeroed buffer of the input
length, copy the DER bytes into it verbatim, and wrap it; always `Ok`. -/
def VerificationKey.new_from_der (public_key_der : Bytes) :
    Except SigError VerificationKey :=
  let key := copyFromSlice (List.replicate public_key_der.length 0) public_key_der
  Except.ok { key := key }

/-- `VerificationKey::new_from_pem`: decode the PEM armor with the opaque
codec `pemToDer` (`pem_parser::pem_to_der`), mapping any codec failure to
`BadPublicKey`, then delegate to `new_from_der`. -/
def VerificationKey.new_from_pem {ε : Type} (pemToDer : String → Except ε Bytes)
    (public_key_pem : String) : Except SigError VerificationKey :=
  match pemToDer public_key_pem with
  | Except.error _ => Except.error SigError.BadPublicKey
  | Except.ok pem => VerificationKey.new_from_der pem

/-- `VerificationKey::verify`: call the opaque primitive
`ring::signature::verify` (embedded as the predicate `ringVerify` on
key bytes, message and signature), mapping any failure to `BadSignature`. -/
def VerificationKey.verify (ringVerify : Bytes → Bytes → Bytes → Bool)
    (k : VerificationKey) (message signature : Bytes) : Except SigError Unit :=
  if ringVerify k.key message signature then Except.ok ()
  else Except.error SigError.BadSignature

/-- `VerificationKey::as_ref`: expose the stored key bytes. -/
def VerificationKey.as_ref (k : VerificationKey) : Bytes :=
  k.key

/-- The observable of `ring::signature::RsaKeyPair` that the source uses:
its public modulus length in bytes. -/
structure RsaKeyPair where
  public_modulus_len : Nat
deriving DecidableEq, Repr

/-- `struct SigningKey { key_pair: signature::RsaKeyPair }`: the key pair and
nothing else — in particular no randomness source is stored. -/
structure SigningKey where
  key_pair : RsaKeyPair
deriving DecidableEq, Repr

/-- `read_file`: open and read a file, mapping any I/O failure to
`SigError::IO`. The file system is the opaque map `fs` from paths to
contents (`Except` failure standing for an unreadable file). -/
def read_file {Path ιo : Type} (fs : Path → Except ιo Bytes) (path : Path) :
    Except SigError Bytes :=
  match fs path with
  | Except.error _ => Except.error SigError.IOFailure
  | Except.ok contents => Except.ok contents

/-- `SigningKey::new_from_der_file`: read the file, parse the DER bytes with
the opaque primitive `ring::signature::RsaKeyPair::from_der` (embedded as
`ringFromDer`), mapping any parse failure to `BadPrivateKey`. -/
def SigningKey.new_from_der_file {Path ιo : Type}
    (ringFromDer : Bytes → Option RsaKeyPair)
    (fs : Path → Except ιo Bytes) (private_key_der : Path) :
    Except SigError SigningKey :=
  match read_file fs private_key_der with
  | Except.error e => Except.error e
  | Except.ok der =>
    match ringFromDer der with
    | none => Except.error SigError.BadPrivateKey
    | some key_pair => Except.ok { key_pair := key_pair }

/-- `SigningKey::sign`: allocate a zeroed signature buffer of the key's
modulus byte length, have the opaque primitive `RsaKeyPair::sign` (embedded
as `ringSign`, receiving the caller-supplied randomness source and mutating
the buffer in place) fill it, mapping any primitive failure to
`OutOfMemory`. -/
def SigningKey.sign {Rng : Type}
    (ringSign : RsaKeyPair → Rng → Bytes → Bytes → Option Bytes)
    (k : SigningKey) (msg : Bytes) (rng : Rng) : Except SigError Bytes :=
  let signature := List.replicate k.key_pair.public_modulus_len 0
  match ringSign k.key_pair rng msg signature with
  | none => Except.error SigError.OutOfMemory
  | some filled => Except.ok filled

/-- A UTF-8 continuation byte (0x80..0xBF). -/
def utf8Cont (b : Nat) : Bool :=
  0x80 ≤ b && b ≤ 0xBF

/-- Admissible second byte of a 3-byte UTF-8 sequence headed by `b0`
(Rust core's validation table: rules out overlong forms and surrogates). -/
def utf8Second3 (b0 b1 : Nat) : Bool :=
  if b0 = 0xE0 then 0xA0 ≤ b1 && b1 ≤ 0xBF
  else if b0 = 0xED then 0x80 ≤ b1 && b1 ≤ 0x9F
  else utf8Cont b1

/-- Admissible second byte of a 4-byte UTF-8 sequence headed by `b0`
(rules out overlong forms and code points beyond U+10FFFF). -/
def utf8Second4 (b0 b1 : Nat) : Bool :=
  if b0 = 0xF0 then 0x90 ≤ b1 && b1 ≤ 0xBF
  else if b0 = 0xF4 then 0x80 ≤ b1 && b1 ≤ 0x8F
  else utf8Cont b1

/-- `std::str::from_utf8` as used by the driver: validate the byte string as
UTF-8 (Rust core's `run_utf8_validation` tables) and decode it to the
character sequence; `none` on invalid input. -/
def decodeUtf8 : Bytes → Option (List Char)
  | [] => some []
  | b0 :: rest =>
    if b0 ≤ 0x7F then
      (decodeUtf8 rest).map (fun cs => Char.ofNat b0 :: cs)
    else if 0xC2 ≤ b0 && b0 ≤ 0xDF then
      match rest with
      | b1 :: rest1 =>
        if utf8Cont b1 then
          (decodeUtf8 rest1).map (fun cs =>
            Char.ofNat ((b0 - 0xC0) * 0x40 + (b1 - 0x80)) :: cs)
        else none
      | [] => none
    else if 0xE0 ≤ b0 && b0 ≤ 0xEF then
      match rest with
      | b1 :: b2 :: rest2 =>
        if utf8Second3 b0 b1 && utf8Cont b2 then
          (decodeUtf8 rest2).map (fun cs =>
            Char.ofNat (((b0 - 0xE0) * 0x40 + (b1 - 0x80)) * 0x40 + (b2 - 0x80)) :: cs)
        else none
      | _ => none
    else if 0xF0 ≤ b0 && b0 ≤ 0xF4 then
      match rest with
      | b1 :: b2 :: b3 :: rest3 =>
        if utf8Second4 b0 b1 && utf8Cont b2 && utf8Cont b3 then
          (decodeUtf8 rest3).map (fun cs =>
            Char.ofNat ((((b0 - 0xF0) * 0x40 + (b1 - 0x80)) * 0x40
              + (b2 - 0x80)) * 0x40 + (b3 - 0x80)) :: cs)
        else none
      | _ => none
    else none

/-- Error taxonomy of the secure channel (spec §7 `ChannelFailure`, with the
UTF-8 decode error of `std::str::from_utf8` kept apart). -/
inductive ChannelError where
  | channelFailure
  | decodeFailure
deriving DecidableEq, Repr

/-- `Read::read_exact(&mut buf)` with `buf.len() = n` on the plaintext byte
stream `s` delivered by the secure channel: block until `n` content bytes
have arrived (across possibly-multiple underlying reads) and return them
with the remaining stream; if the stream ends first, fail. -/
def readExact (n : Nat) (s : Bytes) : Except ChannelError (Bytes × Bytes) :=
  if n ≤ s.length then Except.ok (s.take n, s.drop n)
  else Except.error ChannelError.channelFailure

/-- Big-endian (network-order) 32-bit value of four bytes. -/
def be32 (b0 b1 b2 b3 : Nat) : Nat :=
  ((b0 * 256 + b1) * 256 + b2) * 256 + b3

/-- `ReadBytesExt::read_u32::<NetworkEndian>()`: read exactly four bytes and
combine them big-endian; fail if the stream ends first. -/
def readU32BE (s : Bytes) : Except ChannelError (Nat × Bytes) :=
  match s with
  | b0 :: b1 :: b2 :: b3 :: rest => Except.ok (be32 b0 b1 b2 b3, rest)
  | _ => Except.error ChannelError.channelFailure

/-- The secure-channel message read of src/sample-sp/src/main.rs lines 30-33:
read a 4-byte big-endian length `len`, then exactly `len` content bytes,
then decode them as UTF-8. -/
def readMessage (s : Bytes) : Except ChannelError (List Char × Bytes) :=
  match readU32BE s with
  | Except.error e => Except.error e
  | Except.ok (len, rest) =>
    match readExact len rest with
    | Except.error e => Except.error e
    | Except.ok (content, rest2) =>
      match decodeUtf8 content with
      | none => Except.error ChannelError.decodeFailure
      | some cs => Except.ok (cs, rest2)

/-- Observable events of one run of the bootstrap driver (`main`). -/
inductive Event where
  | clientAccepted
  | contextInit
  | attested (mk : Bytes)
  | enclaveConnected
  | channelConstructed (mk : Bytes)
  | messageRead (msg : List Char)
deriving DecidableEq, Repr

/-- Outcomes of the driver's external calls: TCP accept, config parse plus
`SpRaContext::init`, `do_attestation` (producing the master key on success),
TCP connect to the enclave, and the plaintext byte stream the secure channel
delivers. -/
structure WorldInput where
  acceptOk : Bool
  initOk : Bool
  attestResult : Option Bytes
  connectOk : Bool
  channelPlaintext : Bytes

/-- The bootstrap driver `main` of src/sample-sp/src/main.rs as the event
trace it produces on world `w`; every `unwrap`/`expect` failure terminates
the trace at that point (process panic). `SecureChannel::new` is the opaque
secure-transport constructor; the trace records the master key passed to
it. -/
def spMain (w : WorldInput) : List Event :=
  if !w.acceptOk then []
  else if !w.initOk then [Event.clientAccepted]
  else
    match w.attestResult with
    | none => [Event.clientAccepted, Event.contextInit]
    | some mk =>
      if !w.connectOk then
        [Event.clientAccepted, Event.contextInit, Event.attested mk]
      else
        match readMessage w.channelPlaintext with
        | Except.error _ =>
          [Event.clientAccepted, Event.contextInit, Event.attested mk,
           Event.enclaveConnected, Event.channelConstructed mk]
        | Except.ok (msg, _) =>
          [Event.clientAccepted, Event.contextInit, Event.attested mk,
           Event.enclaveConnected, Event.channelConstructed mk,
           Event.messageRead msg]

/-- A sample world in which every external call succeeds: attestation yields
the master key `[1, 2]` and the secure channel delivers one empty frame. -/
def sampleWorld : WorldInput :=
  { acceptOk := true, initOk := true, attestResult := some [1, 2],
    connectOk := true, channelPlaintext := [0, 0, 0, 0] }

/-- Copying a source of matching length into a buffer yields the source. -/
theorem copyFromSlice_eq_src (dst src : Bytes) (h : dst.length = src.length) :
    copyFromSlice dst src = src := by
  induction dst generalizing src with
  | nil => cases src with
    | nil => rfl
    | cons b bs => simp at h
  | cons d ds ih => cases src with
    | nil => simp at h
    | cons b bs =>
      simp only [List.length_cons, Nat.succ.injEq] at h
      simp [copyFromSlice, List.zipWith] at ih ⊢
      exact ih bs h

/-- `new_from_der` stores its input verbatim. -/
theorem new_from_der_ok (d : Bytes) :
    VerificationKey.new_from_der d = Except.ok { key := d } := by
  unfold VerificationKey.new_from_der
  rw [copyFromSlice_eq_src _ _ (by simp)]

/-- Claim C1: `VerificationKey.verify` succeeds exactly when the RSA
primitive accepts the signature as a valid RSA-PKCS1-SHA256 signature of the
message under the stored key, and on every other outcome it fails with
`BadSignature` and with no other error kind. -/
theorem C1_verify_ok_iff_valid (ringVerify : Bytes → Bytes → Bytes → Bool)
    (k : VerificationKey) (message signature : Bytes) :
    (VerificationKey.verify ringVerify k message signature = Except.ok () ↔
      ringVerify k.key message signature = true) ∧
    (ringVerify k.key message signature = false →
      VerificationKey.verify ringVerify k message signature =
        Except.error SigError.BadSignature) := by
  cases h : ringVerify k.key message signature <;>
    simp [VerificationKey.verify, h]

/-- Claim C1, witness: on a primitive that rejects everything, `verify`
fails with `BadSignature`. -/
theorem C1_witness :
    VerificationKey.verify (fun _ _ _ => false) { key := [1] } [2] [3] =
      Except.error SigError.BadSignature :=
  (C1_verify_ok_iff_valid (fun _ _ _ => false) { key := [1] } [2] [3]).2 rfl

/-- Claim C2: the secure-channel read consumes a 4-byte big-endian length,
then exactly that many content bytes, and returns the content decoded as
UTF-8 with the rest of the stream untouched; with declared length 0 it
returns the empty string without error. -/
theorem C2_readMessage_frames (b0 b1 b2 b3 : Nat) (content rest : Bytes)
    (cs : List Char) (hlen : content.length = be32 b0 b1 b2 b3)
    (hdec : decodeUtf8 content = some cs) :
    readMessage (b0 :: b1 :: b2 :: b3 :: (content ++ rest)) =
      Except.ok (cs, rest) ∧
    ∀ s : Bytes, readMessage (0 :: 0 :: 0 :: 0 :: s) = Except.ok ([], s) := by
  constructor
  · have hle : be32 b0 b1 b2 b3 ≤ content.length + rest.length := by omega
    have htake : (content ++ rest).take (be32 b0 b1 b2 b3) = content := by
      rw [← hlen, List.take_left]
    have hdrop : (content ++ rest).drop (be32 b0 b1 b2 b3) = rest := by
      rw [← hlen, List.drop_left]
    simp [readMessage, readU32BE, readExact, hle, htake, hdrop, hdec]
  · intro s
    have h0 : decodeUtf8 [] = some [] := rfl
    simp [readMessage, readU32BE, be32, readExact, h0]

/-- Claim C2, witness: the frame `00 00 00 02 48 69` followed by a stray
byte reads as the string "Hi" leaving the stray byte unread. -/
theorem C2_witness :
    ([72, 105] : Bytes).length = be32 0 0 0 2 ∧
    decodeUtf8 [72, 105] = some ['H', 'i'] ∧
    (readMessage (0 :: 0 :: 0 :: 2 :: (([72, 105] : Bytes) ++ [7])) =
        Except.ok (['H', 'i'], [7]) ∧
      ∀ s : Bytes, readMessage (0 :: 0 :: 0 :: 0 :: s) = Except.ok ([], s)) :=
  ⟨by decide, by decide,
    C2_readMessage_frames 0 0 0 2 [72, 105] [7] ['H', 'i'] (by decide) (by decide)⟩

/-- Claim C3: when the declared length exceeds the content actually delivered
before the stream ends, the read fails with `ChannelFailure` and never
returns the short content as a complete message. -/
theorem C3_short_frame_fails (b0 b1 b2 b3 : Nat) (content : Bytes)
    (hshort : content.length < be32 b0 b1 b2 b3) :
    readMessage (b0 :: b1 :: b2 :: b3 :: content) =
      Except.error ChannelError.channelFailure ∧
    ∀ r : List Char × Bytes,
      readMessage (b0 :: b1 :: b2 :: b3 :: content) ≠ Except.ok r := by
  have hnle : ¬ be32 b0 b1 b2 b3 ≤ content.length := by omega
  constructor
  · simp [readMessage, readU32BE, readExact, hnle]
  · intro r h
    simp [readMessage, readU32BE, readExact, hnle] at h

/-- Claim C3, witness: a frame declaring 100 bytes of which only 50 arrive
before the stream closes fails with `ChannelFailure`. -/
theorem C3_witness :
    (List.replicate 50 65 : Bytes).length < be32 0 0 0 100 ∧
    readMessage (0 :: 0 :: 0 :: 100 :: List.replicate 50 65) =
      Except.error ChannelError.channelFailure :=
  ⟨by decide,
    (C3_short_frame_fails 0 0 0 100 (List.replicate 50 65) (by decide)).1⟩

/-- Claim C4: in every run of the bootstrap driver, a `SecureChannel` is
constructed only strictly after attestation completed and produced the master
key that the construction uses. -/
theorem C4_channel_after_attestation (w : WorldInput) (mk : Bytes)
    (h : Event.channelConstructed mk ∈ spMain w) :
    ∃ i j : Nat, i < j ∧
      (spMain w).get? i = some (Event.attested mk) ∧
      (spMain w).get? j = some (Event.channelConstructed mk) := by
  rcases w with ⟨acc, ini, att, con, stream⟩
  dsimp [spMain] at h ⊢
  cases acc with
  | false => simp at h
  | true =>
    cases ini with
    | false => simp at h
    | true =>
      cases att with
      | none => simp at h
      | some mk0 =>
        cases con with
        | false => simp at h
        | true =>
          cases hr : readMessage stream with
          | error e =>
            rw [hr] at h
            simp at h
            subst h
            exact ⟨2, 4, by omega, rfl, rfl⟩
          | ok msgRest =>
            obtain ⟨msg, rest2⟩ := msgRest
            rw [hr] at h
            simp at h
            subst h
            exact ⟨2, 4, by omega, rfl, rfl⟩

/-- Claim C4, witness: a fully successful run constructs the channel at
position 4 of the trace, after the attestation event at position 2. -/
theorem C4_witness :
    (Event.channelConstructed [1, 2] ∈ spMain sampleWorld) ∧
    ∃ i j : Nat, i < j ∧
      (spMain sampleWorld).get? i = some (Event.attested [1, 2]) ∧
      (spMain sampleWorld).get? j = some (Event.channelConstructed [1, 2]) :=
  ⟨by decide, C4_channel_after_attestation sampleWorld [1, 2] (by decide)⟩

/-- Claim C6: `VerificationKey::new_from_der` succeeds unconditionally on
every non-empty byte string, storing the bytes verbatim, and never returns
an error itself. -/
theorem C6_new_from_der_succeeds (d : Bytes) (_hne : d ≠ []) :
    VerificationKey.new_from_der d = Except.ok { key := d } ∧
    ∀ e : SigError, VerificationKey.new_from_der d ≠ Except.error e := by
  refine ⟨new_from_der_ok d, fun e h => ?_⟩
  rw [new_from_der_ok d] at h
  exact Except.noConfusion h

/-- Claim C6, witness: construction from the DER bytes `[1, 2, 3]`
succeeds and stores them verbatim. -/
theorem C6_witness :
    ([1, 2, 3] : Bytes) ≠ [] ∧
    VerificationKey.new_from_der [1, 2, 3] = Except.ok { key := [1, 2, 3] } :=
  ⟨by decide, (C6_new_from_der_succeeds [1, 2, 3] (by decide)).1⟩

/-- Claim C7, counterexample: the empty byte string is not a valid ASN.1 key
structure, yet `VerificationKey::new_from_der` succeeds on it and returns no
error of any kind — refuting that such constructions fail with
`BadPublicKey`. -/
theorem C7_counterexample :
    VerificationKey.new_from_der [] = Except.ok { key := [] } ∧
    ∀ e : SigError, VerificationKey.new_from_der [] ≠ Except.error e :=
  ⟨new_from_der_ok [], fun e h => by rw [new_from_der_ok] at h; exact Except.noConfusion h⟩

/-- Claim C7, amended: when the DER bytes read from the file are not a valid
RSA private-key structure (the RSA primitive rejects them), `SigningKey`
construction fails with `BadPrivateKey` and never panics; `VerificationKey`
construction from DER, by contrast, succeeds unconditionally with validation
deferred to `verify`. -/
theorem C7_bad_asn1_behaviour {Path ιo : Type}
    (ringFromDer : Bytes → Option RsaKeyPair) (fs : Path → Except ιo Bytes)
    (p : Path) (d : Bytes) (hread : fs p = Except.ok d)
    (hbad : ringFromDer d = none) :
    SigningKey.new_from_der_file ringFromDer fs p =
      Except.error SigError.BadPrivateKey ∧
    VerificationKey.new_from_der d = Except.ok { key := d } := by
  refine ⟨?_, new_from_der_ok d⟩
  simp [SigningKey.new_from_der_file, read_file, hread, hbad]

/-- Claim C7, witness: a file holding the single byte `0x00`, rejected by
the RSA DER parser, makes `SigningKey` construction fail with
`BadPrivateKey` while `VerificationKey` construction accepts it. -/
theorem C7_witness :
    ((fun _ => Except.ok [0]) : Unit → Except Unit Bytes) () = Except.ok [0] ∧
    ((fun _ => none) : Bytes → Option RsaKeyPair) [0] = none ∧
    (SigningKey.new_from_der_file ((fun _ => none) : Bytes → Option RsaKeyPair)
        ((fun _ => Except.ok [0]) : Unit → Except Unit Bytes) () =
        Except.error SigError.BadPrivateKey ∧
      VerificationKey.new_from_der [0] = Except.ok { key := [0] }) :=
  ⟨rfl, rfl,
    C7_bad_asn1_behaviour ((fun _ => none) : Bytes → Option RsaKeyPair)
      ((fun _ => Except.ok [0]) : Unit → Except Unit Bytes) () [0] rfl rfl⟩

/-- Claim C8: a `VerificationKey` built from PEM text behaves exactly like
one built directly from the decoded DER bytes (identical construction
result, hence identical verify outcome for every message/signature pair),
and `new_from_pem` fails with `BadPublicKey` exactly when the PEM codec
fails. -/
theorem C8_pem_der_equivalence {ε : Type} (pemToDer : String → Except ε Bytes)
    (p : String) :
    (∀ d, pemToDer p = Except.ok d →
      VerificationKey.new_from_pem pemToDer p = VerificationKey.new_from_der d ∧
      ∀ kp kd, VerificationKey.new_from_pem pemToDer p = Except.ok kp →
        VerificationKey.new_from_der d = Except.ok kd →
        ∀ rv m s, VerificationKey.verify rv kp m s =
          VerificationKey.verify rv kd m s) ∧
    (VerificationKey.new_from_pem pemToDer p = Except.error SigError.BadPublicKey ↔
      ∃ e, pemToDer p = Except.error e) := by
  cases hp : pemToDer p with
  | error e =>
    constructor
    · intro d hd
      exact Except.noConfusion hd
    · simp [VerificationKey.new_from_pem, hp]
  | ok d0 =>
    have hpem : VerificationKey.new_from_pem pemToDer p =
        VerificationKey.new_from_der d0 := by
      simp [VerificationKey.new_from_pem, hp]
    constructor
    · intro d hd
      injection hd with h2
      subst h2
      refine ⟨hpem, ?_⟩
      intro kp kd hkp hkd rv m s
      rw [hpem] at hkp
      rw [hkp] at hkd
      injection hkd with h3
      rw [h3]
    · rw [hpem, new_from_der_ok]
      simp

/-- Claim C8, witness: with a codec decoding the text "k" to the DER bytes
`[1]`, construction from PEM equals construction from those DER bytes. -/
theorem C8_witness :
    ((fun _ => Except.ok [1]) : String → Except Unit Bytes) "k" = Except.ok [1] ∧
    VerificationKey.new_from_pem ((fun _ => Except.ok [1]) : String → Except Unit Bytes) "k" =
      VerificationKey.new_from_der [1] :=
  ⟨rfl,
    ((C8_pem_der_equivalence ((fun _ => Except.ok [1]) : String → Except Unit Bytes)
      "k").1 [1] rfl).1⟩

/-- Claim C9: a successful `SigningKey.sign` returns a signature exactly as
long as the key's public modulus (the RSA primitive fills the allocated
buffer in place, which preserves its length), and a primitive failure is
reported as `OutOfMemory`; the randomness source is a per-call argument and
no field of `SigningKey`. -/
theorem C9_sign_contract {Rng : Type}
    (ringSign : RsaKeyPair → Rng → Bytes → Bytes → Option Bytes)
    (hfill : ∀ kp rng m buf out, ringSign kp rng m buf = some out →
      out.length = buf.length)
    (k : SigningKey) (msg : Bytes) (rng : Rng) :
    (∀ sig, SigningKey.sign ringSign k msg rng = Except.ok sig →
      sig.length = k.key_pair.public_modulus_len) ∧
    (ringSign k.key_pair rng msg
        (List.replicate k.key_pair.public_modulus_len 0) = none →
      SigningKey.sign ringSign k msg rng = Except.error SigError.OutOfMemory) := by
  constructor
  · intro sig hsig
    cases hr : ringSign k.key_pair rng msg
        (List.replicate k.key_pair.public_modulus_len 0) with
    | none => simp [SigningKey.sign, hr] at hsig
    | some out =>
      have hlen := hfill _ _ _ _ _ hr
      simp [SigningKey.sign, hr] at hsig
      rw [hsig] at hlen
      simpa using hlen
  · intro h
    simp [SigningKey.sign, h]

/-- Claim C9, witness: with a primitive returning the buffer it was given,
signing under a modulus length of 3 yields the 3-byte buffer, whose length
is the key's modulus length. -/
theorem C9_witness :
    SigningKey.sign (fun _ _ _ buf => some buf)
        { key_pair := { public_modulus_len := 3 } } [1] () =
      Except.ok (List.replicate 3 0) ∧
    (List.replicate 3 0 : Bytes).length =
      ({ key_pair := { public_modulus_len := 3 } } : SigningKey).key_pair.public_modulus_len :=
  ⟨rfl,
    (C9_sign_contract (fun _ _ _ buf => some buf)
      (fun _ _ _ _ _ h => by cases h; rfl)
      { key_pair := { public_modulus_len := 3 } } [1] ()).1
      (List.replicate 3 0) rfl⟩

/-- Claim C10: for every byte string, also the empty one,
`VerificationKey::new_from_der` succeeds and `as_ref` on the resulting key
returns the input verbatim, so construction followed by `as_ref` is the
identity on byte strings. -/
theorem C10_new_from_der_as_ref_identity (d : Bytes) :
    (VerificationKey.new_from_der d).map VerificationKey.as_ref = Except.ok d := by
  rw [new_from_der_ok]
  rfl

end SgxRA
